import Mathlib

/-!
Verification development for the homebridge-noip plugin.

This file shallowly embeds the logic of `src/settings.ts`, `src/platform.ts`,
`src/devices/device.ts` and `src/devices/contactsensor.ts` as executable Lean
definitions and proves properties of the refresh/update cycle, the IP resolver,
the accessory registry logic and the characteristic update helper.

Modelling conventions:
* JS strings are Lean `String` / `List Char`;
* optional TS fields (`username?: string`, `delete?: boolean`, ...) are `Option`;
* side effects (HTTP requests, log lines, characteristic writes) are recorded
  in explicit effect structures returned by the embedded functions;
* the outcomes of the two network calls of a cycle (the IP lookup and the
  No-IP update) are inputs of the embedding (`FetchResult`, `UpdateOutcome`),
  since the code's behaviour is a pure function of those outcomes.
-/

namespace NoIP

/-! ## Constants from `src/settings.ts` -/

def PLATFORM_NAME : String := "NoIP"

def PLUGIN_NAME : String := "@homebridge-plugins/homebridge-noip"

def ipinfo_v4 : String := "https://ipinfo.io/json"

def getmyip_v4 : String := "https://ipv4.getmyip.dev"

def ipify_v4 : String := "https://api.ipify.org?format=json"

def ipapi_v4 : String := "https://ipapi.co/json"

def myip_v4 : String := "https://api4.my-ip.io/v2/ip.json"

def ipinfo_v6 : String := "https://v6.ipinfo.io/json"

def getmyip_v6 : String := "https://ipv6.getmyip.dev"

def ipify_v6 : String := "https://api64.ipify.org?format=json"

def ipapi_v6 : String := "https://ip6api.co/json"

def myip_v6 : String := "https://api6.my-ip.io/v2/ip.txt"

/-- The fixed No-IP update endpoint (`noip` in `src/settings.ts`). -/
def noip : String := "https://dynupdate.no-ip.com/nic/update"

/-- HAP constant `Characteristic.ContactSensorState.CONTACT_DETECTED` (sensor closed). -/
def CONTACT_DETECTED : Nat := 0

/-- HAP constant `Characteristic.ContactSensorState.CONTACT_NOT_DETECTED` (sensor open). -/
def CONTACT_NOT_DETECTED : Nat := 1

/-! ## Device configuration (`devicesConfig` in `src/settings.ts`) -/

structure devicesConfig where
  configDeviceName : Option String := none
  hostname : String
  username : Option String := none
  password : Option String := none
  ipv4or6 : Option String := none
  ipProvider : Option String := none
  firmware : String
  refreshRate : Option Nat := none
  delete : Option Bool := none
deriving DecidableEq, Repr

/-- JS template-literal interpolation of a possibly-undefined string:
`${x}` renders `undefined` as the string "undefined". -/
def jsTemplate : Option String → String
  | some s => s
  | none => "undefined"

/-! ## String scanning primitives

`String.prototype.includes` and the regex `/good|nochg/` of
`contactsensor.ts` are modelled as scans over the character list. -/

/-- JS whitespace characters relevant to `String.prototype.trim`
(the responses handled here are ASCII). -/
def isJsWhitespace (c : Char) : Bool :=
  c = ' ' ∨ c = '\t' ∨ c = '\n' ∨ c = '\r' ∨ c = '\x0b' ∨ c = '\x0c'

/-- Model of `String.prototype.trim`: drop whitespace from both ends. -/
def trimChars (l : List Char) : List Char :=
  ((l.dropWhile isJsWhitespace).reverse.dropWhile isJsWhitespace).reverse

/-- Model of `haystack.includes(pat)`: does `pat` occur at some position of the list? -/
def scanIncludes (pat : List Char) : List Char → Bool
  | [] => pat.isPrefixOf ([] : List Char)
  | c :: rest => pat.isPrefixOf (c :: rest) || scanIncludes pat rest

/-- Model of `data.match(/good|nochg/g)` restricted to its first match `f[0]`:
scan left to right; at each position try the alternative `good` first, then
`nochg`; `none` when the regex does not match. -/
def firstGoodNochg : List Char → Option (List Char)
  | [] => none
  | c :: rest =>
    if ("good".data).isPrefixOf (c :: rest) then some "good".data
    else if ("nochg".data).isPrefixOf (c :: rest) then some "nochg".data
    else firstGoodNochg rest

/-! ## Response interpretation (`ContactSensor` in `src/devices/contactsensor.ts`) -/

/-- Model of `ContactSensor.parseStatus`: the contact sensor state becomes
`CONTACT_DETECTED` exactly when the raw response text contains `nochg`,
and `CONTACT_NOT_DETECTED` otherwise. -/
def parseStatus (response : String) : Nat :=
  if scanIncludes "nochg".data response.data then CONTACT_DETECTED
  else CONTACT_NOT_DETECTED

/-- Which cases of the `switch (f[0])` in `ContactSensor.status` invoke
`this.timeout()`: the six error tokens; `good`, `nochg` and the default
case do not. -/
def statusTimeout (tok : List Char) : Bool :=
  ["nohost".data, "badauth".data, "badagent".data, "!donator".data,
    "abuse".data, "911".data].contains tok

/-! ## IP resolver (`NoIPPlatform.publicIPv4` / `publicIPv6` in `src/platform.ts`) -/

/-- Outcome of the single `undici.request` + `body.json()` of a resolution
attempt. `netError`: the request itself threw (network/transport failure).
`badBody s`: the request returned HTTP status `s` but reading the body as
JSON threw (invalid JSON, or a body on which the `.ip` access throws).
`jsonBody s ip` : the body parsed and the `.ip` field access succeeded;
`ip` is that field when it is a string, `none` when the field is absent. -/
inductive FetchResult
  | netError
  | badBody (statusCode : Nat)
  | jsonBody (statusCode : Nat) (ip : Option String)
deriving DecidableEq, Repr

/-- URL selected by the nested conditional of `publicIPv4`. -/
def publicIPv4Url (ipProvider : Option String) : String :=
  if ipProvider = some "ipify" then ipify_v4
  else if ipProvider = some "getmyip" then getmyip_v4
  else if ipProvider = some "ipapi" then ipapi_v4
  else if ipProvider = some "myip" then myip_v4
  else ipinfo_v4

/-- URL selected by the nested conditional of `publicIPv6`. -/
def publicIPv6Url (ipProvider : Option String) : String :=
  if ipProvider = some "ipify" then ipify_v6
  else if ipProvider = some "getmyip" then getmyip_v6
  else if ipProvider = some "ipapi" then ipapi_v6
  else if ipProvider = some "myip" then myip_v6
  else ipinfo_v6

/-- Observable effects of one resolution attempt: the GET requests issued,
the value returned to the caller (`none` both on failure and when the body
had no `ip` field — the function returns `undefined` in those cases), and
whether the catch block's error log line was emitted. -/
structure LookupResult where
  requests : List String
  ip : Option String
  errorLogged : Bool
deriving DecidableEq, Repr

/-- Model of `NoIPPlatform.publicIPv4`: one GET to the selected URL; the whole body is
wrapped in try/catch, so a thrown request or JSON parse logs
`Not Able To Retreive IPv4 Address` and returns `undefined`; the HTTP status
code is only debug-logged, never checked; `pubIp.ip` is returned as-is. -/
def publicIPv4 (ipProvider : Option String) (res : FetchResult) : LookupResult :=
  let url := publicIPv4Url ipProvider
  match res with
  | .netError => ⟨[url], none, true⟩
  | .badBody _ => ⟨[url], none, true⟩
  | .jsonBody _ ip => ⟨[url], ip, false⟩

/-- Model of `NoIPPlatform.publicIPv6`: identical to `publicIPv4` with the v6 URLs. -/
def publicIPv6 (ipProvider : Option String) (res : FetchResult) : LookupResult :=
  let url := publicIPv6Url ipProvider
  match res with
  | .netError => ⟨[url], none, true⟩
  | .badBody _ => ⟨[url], none, true⟩
  | .jsonBody _ ip => ⟨[url], ip, false⟩

/-! ## The No-IP update request (`ContactSensor.refreshStatus`, request part) -/

/-- Base64 alphabet used by `Buffer.toString('base64')`. -/
def base64Table : List Char :=
  "ABCDEFGHIJKLMNOPQRSTUVWXYZabcdefghijklmnopqrstuvwxyz0123456789+/".data

/-- Character of the base64 alphabet at index `n` (< 64). -/
def b64char (n : Nat) : Char := base64Table.getD n 'A'

/-- Standard base64 with `=` padding over a byte list. -/
def base64EncodeBytes : List Nat → List Char
  | [] => []
  | [b1] => [b64char (b1 / 4), b64char (b1 % 4 * 16), '=', '=']
  | [b1, b2] => [b64char (b1 / 4), b64char (b1 % 4 * 16 + b2 / 16), b64char (b2 % 16 * 4), '=']
  | b1 :: b2 :: b3 :: rest =>
    b64char (b1 / 4) :: b64char (b1 % 4 * 16 + b2 / 16) ::
      b64char (b2 % 16 * 4 + b3 / 64) :: b64char (b3 % 64) :: base64EncodeBytes rest

/-- UTF-8 encoding of one character as its byte values. -/
def utf8Bytes (c : Char) : List Nat :=
  let n := c.toNat
  if n < 0x80 then [n]
  else if n < 0x800 then [0xC0 + n / 64, 0x80 + n % 64]
  else if n < 0x10000 then [0xE0 + n / 4096, 0x80 + n / 64 % 64, 0x80 + n % 64]
  else [0xF0 + n / 262144, 0x80 + n / 4096 % 64, 0x80 + n / 64 % 64, 0x80 + n % 64]

/-- Model of `Buffer.from(s).toString('base64')`: base64 of the UTF-8 bytes of `s`. -/
def base64String (s : String) : String :=
  ⟨base64EncodeBytes (s.data.flatMap utf8Bytes)⟩

/-- The GET request sent to the No-IP endpoint by `refreshStatus`. -/
structure UpdateRequest where
  method : String
  url : String
  queryHostname : String
  queryMyip : Option String
  authorization : String
  userAgent : String
deriving DecidableEq, Repr

/-- The request built by `refreshStatus`: GET to `noip` with query
`hostname`/`myip`, basic auth over `${username}:${password}` and user agent
`Homebridge-NoIP/v${firmware}`. -/
def mkUpdateRequest (dev : devicesConfig) (ip : Option String) : UpdateRequest :=
  { method := "GET"
    url := noip
    queryHostname := dev.hostname
    queryMyip := ip
    authorization :=
      "Basic " ++ base64String (jsTemplate dev.username ++ ":" ++ jsTemplate dev.password)
    userAgent := "Homebridge-NoIP/v" ++ dev.firmware }

/-! ## One refresh cycle (`ContactSensor.refreshStatus`) -/

/-- Outcome of the No-IP update GET: either the request/body-read threw
(transport failure, caught by `refreshStatus`'s catch block) or a body text
was obtained. -/
inductive UpdateOutcome
  | transportError
  | body (text : String)
deriving DecidableEq, Repr

/-- Observable effects of one `refreshStatus` cycle. `matched` is `f[0]` of
the regex match (when a body was obtained and matched); `timeoutInvoked`
records whether `this.timeout()` ran; `responseErrorLogged` the
`error: ${data}` log of the no-match branch; `catchErrorLogged` /
`apiErrorCalled` the catch block's actions. -/
structure RefreshEffects where
  resolverRequests : List String
  updateCall : Option UpdateRequest
  sensorState : Option Nat
  matched : Option (List Char)
  timeoutInvoked : Bool
  responseErrorLogged : Bool
  catchErrorLogged : Bool
  apiErrorCalled : Bool
deriving DecidableEq, Repr

/-- The resolution step of `refreshStatus`: `publicIPv6` when
`device.ipv4or6 === 'ipv6'`, else `publicIPv4`. It never throws — both
resolvers catch internally and return `undefined` on failure. -/
def resolvedLookup (dev : devicesConfig) (res : FetchResult) : LookupResult :=
  if dev.ipv4or6 = some "ipv6" then publicIPv6 dev.ipProvider res
  else publicIPv4 dev.ipProvider res

/-- Model of `ContactSensor.refreshStatus` as a function of the two network outcomes.
The update GET is issued unconditionally with `myip` set to whatever the
resolver returned (possibly `undefined`). On a body: `data = response.trim()`,
`f = data.match(/good|nochg/g)`; if `f` is non-null `status(f, data)` runs
(whose `good`/`nochg` cases do not call `timeout`), else an error is logged;
then `parseStatus(response)` always runs on the untrimmed text. On a thrown
update request the catch block logs and calls `apiError`. -/
def refreshStatus (dev : devicesConfig) (res : FetchResult) (upd : UpdateOutcome) :
    RefreshEffects :=
  let lookup := resolvedLookup dev res
  let req := mkUpdateRequest dev lookup.ip
  match upd with
  | .transportError =>
    { resolverRequests := lookup.requests
      updateCall := some req
      sensorState := none
      matched := none
      timeoutInvoked := false
      responseErrorLogged := false
      catchErrorLogged := true
      apiErrorCalled := true }
  | .body text =>
    let data := trimChars text.data
    let f := firstGoodNochg data
    { resolverRequests := lookup.requests
      updateCall := some req
      sensorState := some (parseStatus text)
      matched := f
      timeoutInvoked := (f.map statusTimeout).getD false
      responseErrorLogged := f.isNone
      catchErrorLogged := false
      apiErrorCalled := false }

/-! ## Refresh loop (`ContactSensor` constructor)

The constructor sets `SensorUpdateInProgress = false`, immediately calls
`refreshStatus()`, then subscribes
`interval(rate).pipe(skipWhile(() => this.SensorUpdateInProgress))` to
`refreshStatus`. No statement of the class ever assigns
`SensorUpdateInProgress` again, and `timeout()` never unsubscribes this
subscription (it pipes the never-assigned field `this.interval`). -/

structure LoopState where
  sensorUpdateInProgress : Bool
  skipping : Bool
  inFlight : Nat
  updateCalls : Nat
deriving DecidableEq, Repr

/-- Loop state right after `this.SensorUpdateInProgress = false` in the
constructor; `skipping` is the internal state of `skipWhile`, which still
tests its predicate until the first emission passes through. -/
def initLoopState : LoopState :=
  { sensorUpdateInProgress := false, skipping := true, inFlight := 0, updateCalls := 0 }

/-- The constructor's immediate `this.refreshStatus()` call (not awaited):
a cycle begins (one No-IP update GET is issued) and is in flight. -/
def constructorKickoff (s : LoopState) : LoopState :=
  { s with inFlight := s.inFlight + 1, updateCalls := s.updateCalls + 1 }

/-- One firing of the interval through the `skipWhile` pipe: the tick is
dropped while `skipWhile` is still skipping and the predicate
`() => this.SensorUpdateInProgress` holds; otherwise `skipWhile` stops
skipping for good and the subscriber runs `refreshStatus` (starting a cycle
that issues its network calls). -/
def loopTick (s : LoopState) : LoopState :=
  if s.skipping ∧ s.sensorUpdateInProgress then s
  else { s with skipping := false, inFlight := s.inFlight + 1, updateCalls := s.updateCalls + 1 }

/-- Completion of an in-flight `refreshStatus`: the method never writes
`SensorUpdateInProgress`, so the loop state is unchanged apart from the
cycle no longer being outstanding. -/
def cycleComplete (s : LoopState) : LoopState :=
  { s with inFlight := s.inFlight - 1 }

/-! ## Rate settings (`deviceBase.getDeviceRateSettings`,
`NoIPPlatform.getPlatformRateSettings`) -/

/-- Model of `this.platformRefreshRate = this.config.options?.refreshRate ? ... : undefined`:
JS truthiness drops a configured `0`. -/
def getPlatformRefreshRate (configured : Option Nat) : Option Nat :=
  match configured with
  | some n => if n = 0 then none else some n
  | none => none

/-- Model of `this.deviceRefreshRate = device.refreshRate ?? this.platform.platformRefreshRate ?? 1800`
(nullish coalescing, in seconds). -/
def deviceRefreshRate (dev : devicesConfig) (platformRefreshRate : Option Nat) : Nat :=
  ((dev.refreshRate).orElse fun _ => platformRefreshRate).getD 1800

/-! ## Accessory registry (`NoIPPlatform.createContactSensor`) -/

structure Accessory where
  uuid : String
  displayName : String
deriving DecidableEq, Repr

/-- Platform registry state: the `this.accessories` array plus the uuids
passed to `api.registerPlatformAccessories` and to
`api.unregisterPlatformAccessories` (via `unregisterPlatformAccessories`). -/
structure RegistryState where
  accessories : List Accessory
  registeredCalls : List String
  unregisteredCalls : List String
deriving DecidableEq, Repr

/-- Model of `NoIPPlatform.createContactSensor`, abstracted over the deterministic
`api.hap.uuid.generate`. An existing accessory with `!device.delete` is
restored in place (neither registered nor unregistered); with `delete`
truthy it is passed once to `unregisterPlatformAccessories` (the source does
not remove it from `this.accessories`). Without an existing accessory,
`!device.delete` creates and registers a new one; otherwise only a debug
error is logged. -/
def createContactSensor (uuidGen : String → String) (st : RegistryState)
    (dev : devicesConfig) : RegistryState :=
  let uuid := uuidGen dev.hostname
  match st.accessories.find? (fun a => a.uuid == uuid) with
  | some existing =>
    if ¬ (dev.delete = some true) then st
    else { st with unregisteredCalls := st.unregisteredCalls ++ [existing.uuid] }
  | none =>
    if ¬ (dev.delete = some true) then
      { st with
        accessories := st.accessories ++ [{ uuid := uuid, displayName := dev.hostname }]
        registeredCalls := st.registeredCalls ++ [uuid] }
    else st

/-! ## Characteristic updates (`deviceBase.updateCharacteristic`) -/

/-- HomeKit characteristic values as used by this plugin. -/
inductive CharacteristicValue
  | nat (n : Nat)
  | str (s : String)
  | bool (b : Bool)
deriving DecidableEq, Repr

/-- Model of `this.accessory.context[Name] = value`: overwrite-or-add on the context
record, modelled as an association list. -/
def contextSet (ctx : List (String × CharacteristicValue)) (name : String)
    (v : CharacteristicValue) : List (String × CharacteristicValue) :=
  match ctx with
  | [] => [(name, v)]
  | (k, w) :: rest => if k = name then (k, v) :: rest else (k, w) :: contextSet rest name v

/-- Read of `this.accessory.context[Name]`. -/
def contextGet (ctx : List (String × CharacteristicValue)) (name : String) :
    Option CharacteristicValue :=
  match ctx with
  | [] => none
  | (k, w) :: rest => if k = name then some w else contextGet rest name

/-- The mutable state touched by `deviceBase.updateCharacteristic`: the log of
`Service.updateCharacteristic` writes and the persisted accessory context. -/
structure CharacteristicEnv where
  serviceWrites : List (String × CharacteristicValue)
  context : List (String × CharacteristicValue)
deriving DecidableEq, Repr

/-- Model of `deviceBase.updateCharacteristic`: an `undefined` value only debug-logs;
a defined value is written to the service and recorded in
`accessory.context[CharacteristicName]`. -/
def updateCharacteristic (env : CharacteristicEnv) (characteristicName : String)
    (value : Option CharacteristicValue) : CharacteristicEnv :=
  match value with
  | none => env
  | some v =>
    { serviceWrites := env.serviceWrites ++ [(characteristicName, v)]
      context := contextSet env.context characteristicName v }

/-! ## The spec's wording of the update call (for the refinement claim C8) -/

/-- The No-IP update call exactly as the spec words it (sections 4.2 and 6):
GET to the fixed update URL with query parameters `hostname` and `myip`,
header `Authorization: Basic base64(username:password)` and header
`User-Agent: <product>/v<firmwareVersion>`, the product being
`Homebridge-NoIP`. Written independently of `mkUpdateRequest` so that the
two can be compared. -/
def specUpdateCall (hostname username password ip firmwareVersion : String) : UpdateRequest :=
  { method := "GET"
    url := "https://dynupdate.no-ip.com/nic/update"
    queryHostname := hostname
    queryMyip := some ip
    authorization := "Basic " ++ base64String (username ++ ":" ++ password)
    userAgent := "Homebridge-NoIP/v" ++ firmwareVersion }

/-! ## Concrete inputs used by witnesses and counterexamples -/

/-- A representative configured device. -/
def devEx : devicesConfig :=
  { hostname := "myhost.ddns.net"
    username := some "me@example.com"
    password := some "secret"
    firmware := "4.1.1" }

/-- A device whose per-device refresh rate is 60 seconds. -/
def devFast : devicesConfig :=
  { hostname := "myhost.ddns.net"
    username := some "me@example.com"
    password := some "secret"
    firmware := "4.1.1"
    refreshRate := some 60 }

/-- A device marked for deletion. -/
def devDel : devicesConfig :=
  { hostname := "myhost.ddns.net", firmware := "4.1.1", delete := some true }

/-- A cached accessory for `devDel`'s hostname under the uuid generator
`fun h => "uuid-" ++ h`. -/
def accEx : Accessory := { uuid := "uuid-myhost.ddns.net", displayName := "myhost" }

/-- A registry holding only `accEx`. -/
def registryEx : RegistryState :=
  { accessories := [accEx], registeredCalls := [], unregisteredCalls := [] }

/-- A characteristic environment with a pre-existing context entry. -/
def envEx : CharacteristicEnv :=
  { serviceWrites := [], context := [("model", .str "DUC")] }

/-! ## Helper lemmas about the string scans -/

theorem isPrefixOf_append_of_isPrefixOf {l₁ l₂ t : List Char}
    (h : l₁.isPrefixOf l₂ = true) : l₁.isPrefixOf (l₂ ++ t) = true := by
  induction l₁ generalizing l₂ with
  | nil => simp [List.isPrefixOf]
  | cons a as ih =>
    cases l₂ with
    | nil => simp [List.isPrefixOf] at h
    | cons b bs =>
      simp only [List.isPrefixOf, List.cons_append, Bool.and_eq_true, beq_iff_eq] at h ⊢
      exact ⟨h.1, ih h.2⟩

theorem scanIncludes_of_isPrefixOf {pat l : List Char}
    (h : pat.isPrefixOf l = true) : scanIncludes pat l = true := by
  cases l with
  | nil => simpa [scanIncludes] using h
  | cons c rest => simp [scanIncludes, h]

theorem scanIncludes_append_left {pat l : List Char} (pre : List Char)
    (h : scanIncludes pat l = true) : scanIncludes pat (pre ++ l) = true := by
  induction pre with
  | nil => simpa using h
  | cons c cs ih => simp [scanIncludes, ih]

/-- The function `trimChars` only removes characters from the two ends: the original list
is a front part, the trimmed list, and a back part. -/
theorem trimChars_decomp (l : List Char) :
    l = l.takeWhile isJsWhitespace ++
      (trimChars l ++ ((l.dropWhile isJsWhitespace).reverse.takeWhile isJsWhitespace).reverse) := by
  unfold trimChars
  conv_lhs => rw [← @List.takeWhile_append_dropWhile _ isJsWhitespace l]
  congr 1
  conv_lhs => rw [← List.reverse_reverse (l.dropWhile isJsWhitespace)]
  conv_lhs =>
    rw [← @List.takeWhile_append_dropWhile _ isJsWhitespace (l.dropWhile isJsWhitespace).reverse]
  rw [List.reverse_append]

/-- A pattern that starts the trimmed text occurs in the raw text. -/
theorem scanIncludes_of_isPrefixOf_trim {pat l : List Char}
    (h : pat.isPrefixOf (trimChars l) = true) : scanIncludes pat l = true := by
  conv_lhs => rw [trimChars_decomp l]
  exact scanIncludes_append_left _
    (scanIncludes_of_isPrefixOf (isPrefixOf_append_of_isPrefixOf h))

/-- The regex `/good|nochg/` can only produce the tokens `good` and `nochg`. -/
theorem firstGoodNochg_eq_good_or_nochg :
    ∀ l tok, firstGoodNochg l = some tok → tok = "good".data ∨ tok = "nochg".data := by
  intro l
  induction l with
  | nil => intro tok h; simp [firstGoodNochg] at h
  | cons c rest ih =>
    intro tok h
    simp only [firstGoodNochg] at h
    split at h
    · exact Or.inl (Option.some.inj h).symm
    · split at h
      · exact Or.inr (Option.some.inj h).symm
      · exact ih tok h

/-- No response body can make a cycle invoke `ContactSensor.timeout`: the
token passed to `status` is always `good` or `nochg`, whose cases do not
call it. The cool-down cases of `status` are unreachable. -/
theorem refreshStatus_timeout_false (dev : devicesConfig) (res : FetchResult) (text : String) :
    (refreshStatus dev res (.body text)).timeoutInvoked = false := by
  show ((firstGoodNochg (trimChars text.data)).map statusTimeout).getD false = false
  cases hf : firstGoodNochg (trimChars text.data) with
  | none => rfl
  | some tok =>
    rcases firstGoodNochg_eq_good_or_nochg _ tok hf with h | h <;> subst h <;> decide

/-! ## Helper lemmas about the resolver and the context store -/

theorem publicIPv4_requests (prov : Option String) (res : FetchResult) :
    (publicIPv4 prov res).requests = [publicIPv4Url prov] := by
  cases res <;> rfl

theorem publicIPv6_requests (prov : Option String) (res : FetchResult) :
    (publicIPv6 prov res).requests = [publicIPv6Url prov] := by
  cases res <;> rfl

theorem publicIPUrl_fallback (p : Option String)
    (hp : p ∉ [some "ipify", some "getmyip", some "ipapi", some "myip"]) :
    publicIPv4Url p = ipinfo_v4 ∧ publicIPv6Url p = ipinfo_v6 := by
  simp only [List.mem_cons, List.not_mem_nil, or_false, not_or] at hp
  obtain ⟨h1, h2, h3, h4⟩ := hp
  refine ⟨?_, ?_⟩
  · unfold publicIPv4Url
    rw [if_neg h1, if_neg h2, if_neg h3, if_neg h4]
  · unfold publicIPv6Url
    rw [if_neg h1, if_neg h2, if_neg h3, if_neg h4]

theorem contextGet_contextSet_self (ctx : List (String × CharacteristicValue))
    (name : String) (v : CharacteristicValue) :
    contextGet (contextSet ctx name v) name = some v := by
  induction ctx with
  | nil => simp [contextSet, contextGet]
  | cons kv rest ih =>
    obtain ⟨k, w⟩ := kv
    by_cases hk : k = name
    · simp [contextSet, contextGet, hk]
    · simp [contextSet, contextGet, hk, ih]

theorem contextGet_contextSet_other (ctx : List (String × CharacteristicValue))
    (name other : String) (v : CharacteristicValue) (h : other ≠ name) :
    contextGet (contextSet ctx name v) other = contextGet ctx other := by
  induction ctx with
  | nil => simp [contextSet, contextGet, Ne.symm h]
  | cons kv rest ih =>
    obtain ⟨k, w⟩ := kv
    by_cases hk : k = name
    · subst hk
      simp [contextSet, contextGet, Ne.symm h]
    · by_cases hko : k = other
      · subst hko
        simp [contextSet, contextGet, hk]
      · simp [contextSet, contextGet, hk, hko, ih]

/-! ## Claim theorems -/

/-- C1 counterexample: for the update cycle whose response text is
`good 203.0.113.9` (trimmed text starts with the token `good`), the contact
sensor state decided by `parseStatus` is `CONTACT_NOT_DETECTED` (open), not
`CONTACT_DETECTED` (closed) as the claim states — `parseStatus` only checks
for the substring `nochg`. -/
theorem good_response_not_closed :
    (refreshStatus devEx (.jsonBody 200 (some "203.0.113.9"))
        (.body "good 203.0.113.9")).sensorState = some CONTACT_NOT_DETECTED
    ∧ CONTACT_NOT_DETECTED ≠ CONTACT_DETECTED := by
  refine ⟨?_, by decide⟩
  show some (parseStatus "good 203.0.113.9") = some CONTACT_NOT_DETECTED
  decide

/-- C1 (amended): for every update cycle whose trimmed response text starts
with the token `good` and whose raw response text does not contain `nochg`,
the contact sensor state decided by the cycle (`parseStatus`) is OPEN
(`CONTACT_NOT_DETECTED`); `parseStatus` yields CLOSED only for responses
containing `nochg`. -/
theorem good_response_sensor_open (dev : devicesConfig) (res : FetchResult) (text : String)
    (_hgood : ("good".data).isPrefixOf (trimChars text.data) = true)
    (hnochg : scanIncludes "nochg".data text.data = false) :
    (refreshStatus dev res (.body text)).sensorState = some CONTACT_NOT_DETECTED := by
  show some (parseStatus text) = some CONTACT_NOT_DETECTED
  unfold parseStatus
  rw [hnochg]
  rfl

/-- C1 witness: the amended claim at the concrete response `good 203.0.113.9`. -/
theorem good_response_sensor_open_witness :
    (refreshStatus devEx (.jsonBody 200 (some "203.0.113.9"))
        (.body "good 203.0.113.9")).sensorState = some CONTACT_NOT_DETECTED :=
  good_response_sensor_open devEx (.jsonBody 200 (some "203.0.113.9"))
    "good 203.0.113.9" (by decide) (by decide)

/-- C2: what the code actually does on a `badauth` response — the regex
`/good|nochg/` does not match, so `status` (and hence `timeout`) is never
invoked and only `error: badauth` is logged; and the interval subscription
is untouched, so the very next timer tick runs `refreshStatus` again and
performs another update call (after the first cycle completed, two update
calls have been made). No cool-down state exists. -/
theorem badauth_no_cooldown :
    (refreshStatus devEx (.jsonBody 200 (some "203.0.113.9")) (.body "badauth")).matched = none
    ∧ (refreshStatus devEx (.jsonBody 200 (some "203.0.113.9"))
        (.body "badauth")).timeoutInvoked = false
    ∧ (refreshStatus devEx (.jsonBody 200 (some "203.0.113.9"))
        (.body "badauth")).responseErrorLogged = true
    ∧ (loopTick (cycleComplete (loopTick initLoopState))).updateCalls = 2 := by
  refine ⟨?_, ?_, ?_, by decide⟩
  · show firstGoodNochg (trimChars "badauth".data) = none
    decide
  · show ((firstGoodNochg (trimChars "badauth".data)).map statusTimeout).getD false = false
    decide
  · show (firstGoodNochg (trimChars "badauth".data)).isNone = true
    decide

/-- C3: the in-flight guard does not work — `SensorUpdateInProgress` is set
`false` in the constructor and never written again, so while the
constructor's immediate cycle is still in flight (`inFlight = 1`, flag still
`false`), the first interval firing passes `skipWhile` and performs its
network calls (`updateCalls` goes from 1 to 2), contradicting the claim that
a firing during an in-flight cycle performs zero network calls. -/
theorem inflight_tick_still_fires :
    (constructorKickoff initLoopState).inFlight = 1
    ∧ (constructorKickoff initLoopState).sensorUpdateInProgress = false
    ∧ (loopTick (constructorKickoff initLoopState)).inFlight = 2
    ∧ (loopTick (constructorKickoff initLoopState)).updateCalls = 2 := by
  decide

/-- C4 counterexample: a non-2xx lookup response whose JSON body carries an
`ip` field is not reported as a failure — `publicIPv4` returns the IP and
logs no error; a missing `ip` field yields no IP but also logs no error; and
the cycle still proceeds to the No-IP update call when resolution yielded no
IP. This refutes the claim that a non-2xx status or missing `ip` field is
reported as a resolution failure and that downstream steps stop the cycle. -/
theorem resolution_failure_not_reported :
    (publicIPv4 none (.jsonBody 500 (some "203.0.113.7"))).ip = some "203.0.113.7"
    ∧ (publicIPv4 none (.jsonBody 500 (some "203.0.113.7"))).errorLogged = false
    ∧ (publicIPv4 none (.jsonBody 200 none)).ip = none
    ∧ (publicIPv4 none (.jsonBody 200 none)).errorLogged = false
    ∧ (refreshStatus devEx (.jsonBody 200 none)
        (.body "nochg 203.0.113.5")).updateCall ≠ none := by
  refine ⟨rfl, rfl, rfl, rfl, ?_⟩
  show some (mkUpdateRequest devEx (resolvedLookup devEx (.jsonBody 200 none)).ip) ≠ none
  exact Option.some_ne_none _

/-- C4 (amended): a thrown lookup request or a body on which JSON reading
throws is reported as a resolution failure (error logged) and yields no IP;
the HTTP status code is never checked, so any JSON body's `ip` field is
returned as-is with no error log (in particular a missing `ip` field yields
no IP silently); and `refreshStatus` always proceeds to the No-IP update
call, with `myip` set to whatever resolution returned — also when that is
nothing. -/
theorem resolution_failure_amended (prov : Option String) (s : Nat) (ip : Option String)
    (dev : devicesConfig) (res : FetchResult) (upd : UpdateOutcome) :
    (publicIPv4 prov .netError).ip = none
    ∧ (publicIPv4 prov .netError).errorLogged = true
    ∧ (publicIPv4 prov (.badBody s)).ip = none
    ∧ (publicIPv4 prov (.badBody s)).errorLogged = true
    ∧ (publicIPv4 prov (.jsonBody s ip)).ip = ip
    ∧ (publicIPv4 prov (.jsonBody s ip)).errorLogged = false
    ∧ (publicIPv6 prov .netError).ip = none
    ∧ (publicIPv6 prov .netError).errorLogged = true
    ∧ (publicIPv6 prov (.badBody s)).ip = none
    ∧ (publicIPv6 prov (.badBody s)).errorLogged = true
    ∧ (publicIPv6 prov (.jsonBody s ip)).ip = ip
    ∧ (publicIPv6 prov (.jsonBody s ip)).errorLogged = false
    ∧ (refreshStatus dev res upd).updateCall
        = some (mkUpdateRequest dev (resolvedLookup dev res).ip) := by
  refine ⟨rfl, rfl, rfl, rfl, rfl, rfl, rfl, rfl, rfl, rfl, rfl, rfl, ?_⟩
  cases upd <;> rfl

/-- C5: what the code actually does on a `911` response — the regex
`/good|nochg/` does not match, so neither `status` nor `timeout` runs and no
back-off is applied; with a configured per-device refresh rate of 60 seconds
the next automatic update attempt happens 60 seconds later, well before the
claimed 30-minute minimum. -/
theorem response911_no_backoff :
    (refreshStatus devFast (.jsonBody 200 (some "203.0.113.9")) (.body "911")).matched = none
    ∧ (refreshStatus devFast (.jsonBody 200 (some "203.0.113.9"))
        (.body "911")).timeoutInvoked = false
    ∧ deviceRefreshRate devFast none = 60
    ∧ deviceRefreshRate devFast none < 30 * 60
    ∧ (loopTick (cycleComplete (loopTick initLoopState))).updateCalls = 2 := by
  refine ⟨?_, ?_, by decide, by decide, by decide⟩
  · show firstGoodNochg (trimChars "911".data) = none
    decide
  · show ((firstGoodNochg (trimChars "911".data)).map statusTimeout).getD false = false
    decide

/-- C6: for every update cycle whose trimmed response text starts with the
token `nochg`, the contact sensor state becomes CLOSED (`CONTACT_DETECTED`)
and the cycle enters no cool-down (`timeout` is not invoked). -/
theorem nochg_closed_no_cooldown (dev : devicesConfig) (res : FetchResult) (text : String)
    (h : ("nochg".data).isPrefixOf (trimChars text.data) = true) :
    (refreshStatus dev res (.body text)).sensorState = some CONTACT_DETECTED
    ∧ (refreshStatus dev res (.body text)).timeoutInvoked = false := by
  constructor
  · show some (parseStatus text) = some CONTACT_DETECTED
    unfold parseStatus
    rw [scanIncludes_of_isPrefixOf_trim h]
    rfl
  · exact refreshStatus_timeout_false dev res text

/-- C6 witness: the concrete response `nochg 203.0.113.5`. -/
theorem nochg_closed_no_cooldown_witness :
    (refreshStatus devEx (.jsonBody 200 (some "203.0.113.5"))
        (.body "nochg 203.0.113.5")).sensorState = some CONTACT_DETECTED
    ∧ (refreshStatus devEx (.jsonBody 200 (some "203.0.113.5"))
        (.body "nochg 203.0.113.5")).timeoutInvoked = false :=
  nochg_closed_no_cooldown devEx (.jsonBody 200 (some "203.0.113.5"))
    "nochg 203.0.113.5" (by decide)

/-- C7: for every provider name crossed with both address families, one
resolution call issues exactly one GET, to the documented URL of that pair,
and an unrecognized (or absent) provider name falls back to the ipinfo
endpoint of the selected family. -/
theorem provider_urls :
    (∀ res : FetchResult,
      (publicIPv4 (some "ipify") res).requests = [ipify_v4]
      ∧ (publicIPv4 (some "getmyip") res).requests = [getmyip_v4]
      ∧ (publicIPv4 (some "ipapi") res).requests = [ipapi_v4]
      ∧ (publicIPv4 (some "myip") res).requests = [myip_v4]
      ∧ (publicIPv4 (some "ipinfo") res).requests = [ipinfo_v4]
      ∧ (publicIPv6 (some "ipify") res).requests = [ipify_v6]
      ∧ (publicIPv6 (some "getmyip") res).requests = [getmyip_v6]
      ∧ (publicIPv6 (some "ipapi") res).requests = [ipapi_v6]
      ∧ (publicIPv6 (some "myip") res).requests = [myip_v6]
      ∧ (publicIPv6 (some "ipinfo") res).requests = [ipinfo_v6])
    ∧ ∀ (p : Option String) (res : FetchResult),
        p ∉ [some "ipify", some "getmyip", some "ipapi", some "myip"] →
        (publicIPv4 p res).requests = [ipinfo_v4]
        ∧ (publicIPv6 p res).requests = [ipinfo_v6] := by
  constructor
  · intro res
    rw [publicIPv4_requests, publicIPv4_requests, publicIPv4_requests, publicIPv4_requests,
      publicIPv4_requests, publicIPv6_requests, publicIPv6_requests, publicIPv6_requests,
      publicIPv6_requests, publicIPv6_requests]
    refine ⟨?_, ?_, ?_, ?_, ?_, ?_, ?_, ?_, ?_, ?_⟩ <;> decide
  · intro p res hp
    obtain ⟨h4, h6⟩ := publicIPUrl_fallback p hp
    rw [publicIPv4_requests, publicIPv6_requests, h4, h6]
    exact ⟨rfl, rfl⟩

/-- C7 witness: an unrecognized provider name falls back to the ipinfo v4
endpoint. -/
theorem provider_urls_witness :
    (publicIPv4 (some "nonsense") .netError).requests = [ipinfo_v4]
    ∧ (publicIPv6 (some "nonsense") .netError).requests = [ipinfo_v6] :=
  provider_urls.2 (some "nonsense") .netError (by decide)

/-- C8: for a device with configured credentials, the No-IP update call built
by `refreshStatus` is exactly the call the spec describes: a GET to the
fixed update URL with query parameters `hostname` and `myip`, header
`Authorization: Basic base64(username:password)` and header
`User-Agent: Homebridge-NoIP/v<firmware>`. -/
theorem update_request_matches_spec (dev : devicesConfig) (u p ip : String)
    (hu : dev.username = some u) (hp : dev.password = some p) :
    mkUpdateRequest dev (some ip) = specUpdateCall dev.hostname u p ip dev.firmware := by
  unfold mkUpdateRequest specUpdateCall
  rw [hu, hp]
  rfl

/-- C8 witness: the update request of the representative device. -/
theorem update_request_matches_spec_witness :
    mkUpdateRequest devEx (some "203.0.113.9")
      = specUpdateCall "myhost.ddns.net" "me@example.com" "secret" "203.0.113.9" "4.1.1" :=
  update_request_matches_spec devEx "me@example.com" "secret" "203.0.113.9" rfl rfl

/-- C9: on startup, a configured device with `delete: true` never results in
a registered accessory — `createContactSensor` registers nothing and creates
nothing for it; when no cached accessory matches its hostname's uuid, no
unregistration happens either, and when one matches, that accessory is
passed to `unregisterPlatformAccessories` exactly once. -/
theorem delete_device_never_registered (uuidGen : String → String) (st : RegistryState)
    (dev : devicesConfig) (hdel : dev.delete = some true) :
    (createContactSensor uuidGen st dev).registeredCalls = st.registeredCalls
    ∧ (createContactSensor uuidGen st dev).accessories = st.accessories
    ∧ (st.accessories.find? (fun a => a.uuid == uuidGen dev.hostname) = none →
        (createContactSensor uuidGen st dev).unregisteredCalls = st.unregisteredCalls)
    ∧ ∀ a, st.accessories.find? (fun a => a.uuid == uuidGen dev.hostname) = some a →
        (createContactSensor uuidGen st dev).unregisteredCalls
          = st.unregisteredCalls ++ [a.uuid] := by
  unfold createContactSensor
  rw [hdel]
  cases hfind : st.accessories.find? (fun a => a.uuid == uuidGen dev.hostname) with
  | none => simp only [hfind]; simp
  | some a0 =>
    simp only [hfind]
    refine ⟨by simp, by simp, by simp, ?_⟩
    intro a ha
    obtain rfl : a0 = a := Option.some.inj ha
    simp

/-- C9 witness: deleting `devDel` with its accessory cached unregisters it
once and registers nothing. -/
theorem delete_device_never_registered_witness :
    (createContactSensor (fun h => "uuid-" ++ h) registryEx devDel).registeredCalls
      = registryEx.registeredCalls
    ∧ (createContactSensor (fun h => "uuid-" ++ h) registryEx devDel).unregisteredCalls
      = registryEx.unregisteredCalls ++ [accEx.uuid] :=
  ⟨(delete_device_never_registered (fun h => "uuid-" ++ h) registryEx devDel rfl).1,
    (delete_device_never_registered (fun h => "uuid-" ++ h) registryEx devDel rfl).2.2.2
      accEx (by decide)⟩

/-- C10: `deviceBase.updateCharacteristic` with an `undefined` value performs
no characteristic write and leaves the accessory context unchanged; with a
defined value it writes the characteristic and records the same value in the
context under the characteristic's name, leaving every other context entry
unchanged. -/
theorem updateCharacteristic_effects (env : CharacteristicEnv) (name : String) :
    updateCharacteristic env name none = env
    ∧ ∀ v : CharacteristicValue,
        (updateCharacteristic env name (some v)).serviceWrites
          = env.serviceWrites ++ [(name, v)]
        ∧ contextGet (updateCharacteristic env name (some v)).context name = some v
        ∧ ∀ other, other ≠ name →
            contextGet (updateCharacteristic env name (some v)).context other
              = contextGet env.context other := by
  refine ⟨rfl, fun v => ⟨rfl, ?_, ?_⟩⟩
  · exact contextGet_contextSet_self env.context name v
  · exact fun other h => contextGet_contextSet_other env.context name other v h

/-- C10 witness: writing `ContactSensorState` leaves the `model` context
entry untouched. -/
theorem updateCharacteristic_effects_witness :
    contextGet (updateCharacteristic envEx "ContactSensorState"
        (some (.nat CONTACT_DETECTED))).context "model" = contextGet envEx.context "model" :=
  ((updateCharacteristic_effects envEx "ContactSensorState").2
    (.nat CONTACT_DETECTED)).2.2 "model" (by decide)

end NoIP
